import Mathlib

/-!
Verification of the nagar_team complaint-tracking application core.

Shallow embedding of:
- the StatsAggregator reduction in fetchStats (AdminPortal.tsx),
- the QueryBuilder in fetchComplaints (AdminPortal.tsx),
- the ListController fetch result handling (AdminPortal.tsx),
- the AssignmentWorkflow in handleAssignWorker (AdminPortal.tsx),
- the assignment dialog initialisation in openAssignDialog (AdminPortal.tsx),
- the pagination button disabled conditions (AdminPortal.tsx),
- the NotificationGateway request handler (supabase/functions/analyze-media/index.ts).

JavaScript truthiness on strings and nullable values is modelled explicitly:
a value is falsy exactly when it is absent (null or undefined, modelled as
none) or is the empty string.
-/

namespace NagarRakshak

/-! ## Data model -/

/-- A row of the complaints table, restricted to the fields the embedded
operations read or write.  status and assigned_to are nullable columns. -/
structure Complaint where
  id : Nat
  complaint_code : String
  status : Option String
  assigned_to : Option String
deriving Repr, DecidableEq

/-- A row of the complaint_status_updates audit table, as inserted by
handleAssignWorker. -/
structure StatusUpdate where
  complaint_id : Nat
  status : String
  assigned_to : String
  assigned_contact : String
  note : String
deriving Repr, DecidableEq

/-- The backing store: the complaints table and the append-only audit table. -/
structure RecordStoreState where
  complaints : List Complaint
  statusUpdates : List StatusUpdate
deriving Repr, DecidableEq

/-! ## StatsAggregator (fetchStats, AdminPortal.tsx lines 78-99)

The source reduces the status column: it lowercases the nullable status via
optional chaining, increments pending when the result is the word registered,
else increments inProgress when it is assigned or in-progress, else increments
resolved when it is resolved, and always increments total.
-/

structure Stats where
  pending : Nat
  inProgress : Nat
  resolved : Nat
  total : Nat
deriving Repr, DecidableEq

/-- Character-wise lowercase, mapping Char.toLower over the underlying
character list.  Extensionally this is String.toLower (which maps the same
Char.toLower over the string); it is stated on the character list so that it
reduces inside the kernel.  It models toLowerCase for the ASCII status
strings the aggregator compares against. -/
def jsToLower (s : String) : String :=
  String.mk (s.data.map Char.toLower)

/-- One step of the reduce callback in fetchStats.  complaintStatus is the
nullable status column value; the optional chaining status?.toLowerCase()
is Option.map jsToLower. -/
def statsStep (acc : Stats) (complaintStatus : Option String) : Stats :=
  let status := complaintStatus.map jsToLower
  let acc1 :=
    if status = some "registered" then { acc with pending := acc.pending + 1 }
    else if status = some "assigned" ∨ status = some "in-progress" then
      { acc with inProgress := acc.inProgress + 1 }
    else if status = some "resolved" then { acc with resolved := acc.resolved + 1 }
    else acc
  { acc1 with total := acc1.total + 1 }

/-- The reduce in fetchStats over the fetched status column, starting from
all-zero counters. -/
def computeStats (rows : List (Option String)) : Stats :=
  rows.foldl statsStep { pending := 0, inProgress := 0, resolved := 0, total := 0 }

/-- Spec-side classifier: a row counts toward pending iff its status equals
Registered case-insensitively. -/
def specIsPending (s : Option String) : Bool :=
  decide (s.map jsToLower = some "registered")

/-- Spec-side classifier: a row counts toward inProgress iff its status equals
Assigned or In-Progress case-insensitively. -/
def specIsInProgress (s : Option String) : Bool :=
  decide (s.map jsToLower = some "assigned") ||
    decide (s.map jsToLower = some "in-progress")

/-- Spec-side classifier: a row counts toward resolved iff its status equals
Resolved case-insensitively. -/
def specIsResolved (s : Option String) : Bool :=
  decide (s.map jsToLower = some "resolved")

/-! ## QueryBuilder (fetchComplaints, AdminPortal.tsx lines 45-69)

The source selects all complaint columns requesting an exact count, adds an
equality predicate on the status column when filters.status is truthy and on
the issue_type column when filters.issueType is truthy, restricts to the row
range from (page - 1) * complaintsPerPage to that value plus
complaintsPerPage - 1, and orders by created_at with ascending false.
-/

/-- The client-held filter state; an unselected filter is the empty string. -/
structure FilterState where
  status : String
  issueType : String
deriving Repr, DecidableEq

/-- Descriptor of the query fetchComplaints sends to the store.  A none
predicate field means no predicate clause was added for that column. -/
structure ComplaintsQuery where
  countExact : Bool
  statusEq : Option String
  issueTypeEq : Option String
  rangeFrom : Int
  rangeTo : Int
  orderColumn : String
  orderAscending : Bool
deriving Repr, DecidableEq

/-- The query fetchComplaints constructs from the filter state, page number
and page size.  The truthiness tests if (filters.status) and
if (filters.issueType) are false exactly on the empty string. -/
def fetchComplaintsQuery (filters : FilterState) (page complaintsPerPage : Int) :
    ComplaintsQuery :=
  { countExact := true,
    statusEq := if filters.status = "" then none else some filters.status,
    issueTypeEq := if filters.issueType = "" then none else some filters.issueType,
    rangeFrom := (page - 1) * complaintsPerPage,
    rangeTo := (page - 1) * complaintsPerPage + complaintsPerPage - 1,
    orderColumn := "created_at",
    orderAscending := false }

/-! ## ListController result handling (fetchComplaints, lines 46-75) -/

/-- The component state fetchComplaints reads and writes. -/
structure ListState where
  complaints : List Complaint
  totalComplaints : Int
  loading : Bool
deriving Repr, DecidableEq

/-- The response of the awaited query: data and count are nullable, error is
modelled by a flag (the handler only tests its presence). -/
structure QueryResponse where
  data : Option (List Complaint)
  error : Bool
  count : Option Int
deriving Repr, DecidableEq

/-- The component state after fetchComplaints returns, together with whether
the destructive error notification was raised. -/
structure FetchOutcome where
  complaints : List Complaint
  totalComplaints : Int
  loading : Bool
  errorToastShown : Bool
deriving Repr, DecidableEq

/-- Result handling of fetchComplaints: on error the catch block only raises
the notification (complaints and totalComplaints are untouched); on success
setComplaints(data or []) and setTotalComplaints(count or 0) run; the finally
block always ends with setLoading(false). -/
def fetchComplaintsApply (st : ListState) (resp : QueryResponse) : FetchOutcome :=
  if resp.error then
    { complaints := st.complaints, totalComplaints := st.totalComplaints,
      loading := false, errorToastShown := true }
  else
    { complaints := resp.data.getD [], totalComplaints := resp.count.getD 0,
      loading := false, errorToastShown := false }

/-! ## Pagination controls (AdminPortal.tsx lines 359-374) -/

/-- disabled condition of the Previous button: currentPage === 1. -/
def previousDisabled (currentPage : Int) : Bool :=
  decide (currentPage = 1)

/-- disabled condition of the Next button:
currentPage * complaintsPerPage >= totalComplaints. -/
def nextDisabled (currentPage complaintsPerPage totalComplaints : Int) : Bool :=
  decide (currentPage * complaintsPerPage ≥ totalComplaints)

/-! ## Assignment dialog initialisation (openAssignDialog, lines 171-177) -/

/-- The dialog-related component state set by openAssignDialog. -/
structure DialogState where
  selectedComplaint : Option Complaint
  newStatus : String
  workerName : String
  workerContact : String
  assignDialogOpen : Bool
deriving Repr, DecidableEq

/-- openAssignDialog: stores the complaint, seeds newStatus and workerContact
both from complaint.status (with the or-empty-string fallback of the source),
seeds workerName from complaint.assigned_to, and opens the dialog. -/
def openAssignDialog (complaint : Complaint) : DialogState :=
  { selectedComplaint := some complaint,
    newStatus := complaint.status.getD "",
    workerName := complaint.assigned_to.getD "",
    workerContact := complaint.status.getD "",
    assignDialogOpen := true }

/-! ## AssignmentWorkflow (handleAssignWorker, AdminPortal.tsx lines 123-169)

The source first validates selectedComplaint, workerName, workerContact and
newStatus by truthiness (the note field is not checked); it then awaits the
complaints update (setting status and assigned_to on the selected row) and
throws on its error; then awaits the complaint_status_updates insert and
throws on its error; on full success it raises the success notification,
closes the dialog and resets the form.  The catch block raises the error
notification and performs no compensation.  Store failures are modelled by
the two fault flags updateFails and insertFails; a failed call leaves the
store unchanged.
-/

/-- The form state handleAssignWorker reads. -/
structure AssignForm where
  selectedComplaint : Option Complaint
  workerName : String
  workerContact : String
  statusNote : String
  newStatus : String
deriving Repr, DecidableEq

/-- The three notifications handleAssignWorker can raise. -/
inductive ToastKind where
  | fillAllFields
  | errorAssigning
  | workerAssigned
deriving Repr, DecidableEq

/-- Everything observable after a run of handleAssignWorker: which store
calls were issued, the resulting store, the notification raised, and whether
the success postcondition (dialog close, form reset) ran. -/
structure AssignOutcome where
  updateAttempted : Bool
  insertAttempted : Bool
  store : RecordStoreState
  toast : ToastKind
  dialogClosed : Bool
  formReset : Bool
deriving Repr, DecidableEq

/-- The complaints-table update issued by handleAssignWorker: on every row
whose id matches the selected complaint, set status to the chosen value and
assigned_to to the worker name. -/
def applyComplaintUpdate (store : RecordStoreState) (targetId : Nat)
    (chosenStatus assignedTo : String) : RecordStoreState :=
  { store with complaints := store.complaints.map fun c =>
      if c.id = targetId then
        { c with status := some chosenStatus, assigned_to := some assignedTo }
      else c }

/-- handleAssignWorker as a state transition over the record store, with
fault injection for the two awaited store calls. -/
def handleAssignWorker (form : AssignForm) (store : RecordStoreState)
    (updateFails insertFails : Bool) : AssignOutcome :=
  match form.selectedComplaint with
  | none =>
    { updateAttempted := false, insertAttempted := false, store := store,
      toast := ToastKind.fillAllFields, dialogClosed := false, formReset := false }
  | some sel =>
    if form.workerName = "" ∨ form.workerContact = "" ∨ form.newStatus = "" then
      { updateAttempted := false, insertAttempted := false, store := store,
        toast := ToastKind.fillAllFields, dialogClosed := false, formReset := false }
    else if updateFails then
      { updateAttempted := true, insertAttempted := false, store := store,
        toast := ToastKind.errorAssigning, dialogClosed := false, formReset := false }
    else
      let store1 := applyComplaintUpdate store sel.id form.newStatus form.workerName
      if insertFails then
        { updateAttempted := true, insertAttempted := true, store := store1,
          toast := ToastKind.errorAssigning, dialogClosed := false, formReset := false }
      else
        { updateAttempted := true, insertAttempted := true,
          store := { store1 with statusUpdates := store1.statusUpdates ++
            [{ complaint_id := sel.id, status := form.newStatus,
               assigned_to := form.workerName, assigned_contact := form.workerContact,
               note := form.statusNote }] },
          toast := ToastKind.workerAssigned, dialogClosed := true, formReset := true }

/-! ## NotificationGateway (supabase/functions/analyze-media/index.ts)

The handler parses a JSON body with phone, username and password, throws when
any of the three is falsy, throws when the phone fails the regex test for
plus-nine-one followed by exactly 10 digits, then either submits the SMS to
the provider (when all three environment credentials are truthy; a non-ok
provider response throws with the provider message) or writes the six
fallback console lines.  The catch block maps any thrown error to a 400
response with success false and the error message; the success path returns
200 with success true.
-/

/-- JavaScript string truthiness on a nullable value: falsy exactly when
absent or the empty string. -/
def falsyStr : Option String → Bool
  | none => true
  | some s => decide (s = "")

/-- The parsed JSON request body; none models an absent field. -/
structure RequestBody where
  phone : Option String
  username : Option String
  password : Option String
deriving Repr, DecidableEq

/-- The regex test used by the handler: the string is the three characters
plus, nine, one followed by exactly 10 decimal digits.  A string matches the
anchored regex iff its character list decomposes as that three-character
prefix plus a 10-digit tail, which is what the take and drop conditions
state. -/
def phoneFormatValid (phone : String) : Bool :=
  decide (phone.data.take 3 = ['+', '9', '1']) &&
    decide ((phone.data.drop 3).length = 10) &&
    (phone.data.drop 3).all Char.isDigit

/-- The three provider credentials read from the environment. -/
structure TwilioEnv where
  accountSid : Option String
  authToken : Option String
  phoneNumber : Option String
deriving Repr, DecidableEq

/-- The truthiness test guarding the provider branch: all three credentials
present and non-empty. -/
def credsConfigured (env : TwilioEnv) : Bool :=
  !falsyStr env.accountSid && !falsyStr env.authToken && !falsyStr env.phoneNumber

/-- The JSON body and status of the HTTP response. -/
structure GatewayResponse where
  status : Nat
  success : Bool
  message : Option String
  error : Option String
deriving Repr, DecidableEq

/-- Everything observable from one request: the response, whether the request
was thrown out by the validation block, whether a provider send was submitted,
and the console lines written by the fallback branch. -/
structure GatewayOutcome where
  response : GatewayResponse
  validationRejected : Bool
  smsRequestMade : Bool
  logLines : List String
deriving Repr, DecidableEq

/-- The 400 error response produced by the catch block. -/
def errorResponse (msg : String) : GatewayResponse :=
  { status := 400, success := false, message := none, error := some msg }

/-- The 200 success response. -/
def successResponse : GatewayResponse :=
  { status := 200, success := true,
    message := some "Credentials sent successfully.", error := none }

/-- The request handler.  providerOk models response.ok of the provider call
and providerMessage the message field of the provider error body (nullable);
both are only consulted when the provider branch runs. -/
def handleCredentialRequest (body : RequestBody) (env : TwilioEnv)
    (providerOk : Bool) (providerMessage : Option String) : GatewayOutcome :=
  if falsyStr body.phone || falsyStr body.username || falsyStr body.password then
    { response := errorResponse "Missing required parameters: phone, username, or password.",
      validationRejected := true, smsRequestMade := false, logLines := [] }
  else if !phoneFormatValid (body.phone.getD "") then
    { response := errorResponse "Invalid phone number format. Expected \x27+91\x27 followed by 10 digits.",
      validationRejected := true, smsRequestMade := false, logLines := [] }
  else if credsConfigured env then
    if providerOk then
      { response := successResponse, validationRejected := false,
        smsRequestMade := true, logLines := [] }
    else
      { response := errorResponse ("Twilio Error: " ++ providerMessage.getD "Failed to send SMS."),
        validationRejected := false, smsRequestMade := true, logLines := [] }
  else
    { response := successResponse, validationRejected := false, smsRequestMade := false,
      logLines :=
        [ "--- Twilio credentials not found. Logging SMS content instead. ---",
          "--- SMS to " ++ body.phone.getD "" ++ " ---",
          "Welcome to Nagar Rakshak!",
          "Your username: " ++ body.username.getD "",
          "Your password: " ++ body.password.getD "",
          "--- End of SMS ---" ] }

/-- The validation block in one predicate: all three fields truthy and the
phone matching the pattern. -/
def gatewayValidationPasses (body : RequestBody) : Bool :=
  !(falsyStr body.phone || falsyStr body.username || falsyStr body.password) &&
    phoneFormatValid (body.phone.getD "")

/-! ## Theorems -/

theorem statsStep_pending (acc : Stats) (s : Option String) :
    (statsStep acc s).pending = acc.pending + (if specIsPending s then 1 else 0) := by
  rcases s with _ | x
  · simp [statsStep, specIsPending]
  · by_cases h1 : jsToLower x = "registered" <;>
    by_cases h2 : jsToLower x = "assigned" <;>
    by_cases h3 : jsToLower x = "in-progress" <;>
    by_cases h4 : jsToLower x = "resolved" <;>
      simp_all [statsStep, specIsPending]

theorem statsStep_inProgress (acc : Stats) (s : Option String) :
    (statsStep acc s).inProgress = acc.inProgress + (if specIsInProgress s then 1 else 0) := by
  rcases s with _ | x
  · simp [statsStep, specIsInProgress]
  · by_cases h1 : jsToLower x = "registered" <;>
    by_cases h2 : jsToLower x = "assigned" <;>
    by_cases h3 : jsToLower x = "in-progress" <;>
    by_cases h4 : jsToLower x = "resolved" <;>
      simp_all [statsStep, specIsInProgress]

theorem statsStep_resolved (acc : Stats) (s : Option String) :
    (statsStep acc s).resolved = acc.resolved + (if specIsResolved s then 1 else 0) := by
  rcases s with _ | x
  · simp [statsStep, specIsResolved]
  · by_cases h1 : jsToLower x = "registered" <;>
    by_cases h2 : jsToLower x = "assigned" <;>
    by_cases h3 : jsToLower x = "in-progress" <;>
    by_cases h4 : jsToLower x = "resolved" <;>
      simp_all [statsStep, specIsResolved]

theorem statsStep_total (acc : Stats) (s : Option String) :
    (statsStep acc s).total = acc.total + 1 := by
  rcases s with _ | x
  · simp [statsStep]
  · by_cases h1 : jsToLower x = "registered" <;>
    by_cases h2 : jsToLower x = "assigned" <;>
    by_cases h3 : jsToLower x = "in-progress" <;>
    by_cases h4 : jsToLower x = "resolved" <;>
      simp_all [statsStep]

theorem computeStats_foldl_pending (rows : List (Option String)) :
    ∀ acc : Stats, (rows.foldl statsStep acc).pending = acc.pending + rows.countP specIsPending := by
  induction rows with
  | nil => intro acc; simp
  | cons s rest ih =>
    intro acc
    rw [List.foldl_cons, ih, statsStep_pending, List.countP_cons]
    cases h : specIsPending s <;> (simp [h]; try omega)

theorem computeStats_foldl_inProgress (rows : List (Option String)) :
    ∀ acc : Stats, (rows.foldl statsStep acc).inProgress = acc.inProgress + rows.countP specIsInProgress := by
  induction rows with
  | nil => intro acc; simp
  | cons s rest ih =>
    intro acc
    rw [List.foldl_cons, ih, statsStep_inProgress, List.countP_cons]
    cases h : specIsInProgress s <;> (simp [h]; try omega)

theorem computeStats_foldl_resolved (rows : List (Option String)) :
    ∀ acc : Stats, (rows.foldl statsStep acc).resolved = acc.resolved + rows.countP specIsResolved := by
  induction rows with
  | nil => intro acc; simp
  | cons s rest ih =>
    intro acc
    rw [List.foldl_cons, ih, statsStep_resolved, List.countP_cons]
    cases h : specIsResolved s <;> (simp [h]; try omega)

theorem computeStats_foldl_total (rows : List (Option String)) :
    ∀ acc : Stats, (rows.foldl statsStep acc).total = acc.total + rows.length := by
  induction rows with
  | nil => intro acc; simp
  | cons s rest ih =>
    intro acc
    rw [List.foldl_cons, ih, statsStep_total, List.length_cons]
    omega

/-- C1: StatsAggregator reduces the status column to four counters with
case-insensitive classification: pending counts exactly the rows whose status
equals Registered, inProgress exactly Assigned or In-Progress, resolved
exactly Resolved, and total counts every row; a status matching no known case
contributes to total only (it is counted by none of the three classifiers).
The concrete scenario [Registered, Registered, Assigned, Resolved, Unknown]
yields pending=2, inProgress=1, resolved=1, total=5. -/
theorem statsAggregator_classification (rows : List (Option String)) :
    (computeStats rows).pending = rows.countP specIsPending ∧
    (computeStats rows).inProgress = rows.countP specIsInProgress ∧
    (computeStats rows).resolved = rows.countP specIsResolved ∧
    (computeStats rows).total = rows.length ∧
    computeStats [some "Registered", some "Registered", some "Assigned",
        some "Resolved", some "Unknown"] =
      { pending := 2, inProgress := 1, resolved := 1, total := 5 } := by
  refine ⟨?_, ?_, ?_, ?_, by decide⟩
  · simpa [computeStats] using
      computeStats_foldl_pending rows { pending := 0, inProgress := 0, resolved := 0, total := 0 }
  · simpa [computeStats] using
      computeStats_foldl_inProgress rows { pending := 0, inProgress := 0, resolved := 0, total := 0 }
  · simpa [computeStats] using
      computeStats_foldl_resolved rows { pending := 0, inProgress := 0, resolved := 0, total := 0 }
  · simpa [computeStats] using
      computeStats_foldl_total rows { pending := 0, inProgress := 0, resolved := 0, total := 0 }

/-- C4: for every FilterState and page, the query fetchComplaints builds
requests an exact count, carries an equality predicate on status exactly when
the status filter is non-empty (and then with the filter value), likewise for
the issue-type filter, restricts to the inclusive row range from
(page-1)*pageSize to page*pageSize - 1, orders by creation timestamp
descending, and the rows and count the store returns are installed in the
component state unchanged: no client-side filtering or sorting. -/
theorem queryBuilder_contract (filters : FilterState) (page complaintsPerPage : Int) :
    (fetchComplaintsQuery filters page complaintsPerPage).countExact = true ∧
    ((fetchComplaintsQuery filters page complaintsPerPage).statusEq = none ↔
      filters.status = "") ∧
    ((fetchComplaintsQuery filters page complaintsPerPage).statusEq = some filters.status ↔
      filters.status ≠ "") ∧
    ((fetchComplaintsQuery filters page complaintsPerPage).issueTypeEq = none ↔
      filters.issueType = "") ∧
    ((fetchComplaintsQuery filters page complaintsPerPage).issueTypeEq = some filters.issueType ↔
      filters.issueType ≠ "") ∧
    (fetchComplaintsQuery filters page complaintsPerPage).rangeFrom =
      (page - 1) * complaintsPerPage ∧
    (fetchComplaintsQuery filters page complaintsPerPage).rangeTo =
      page * complaintsPerPage - 1 ∧
    (fetchComplaintsQuery filters page complaintsPerPage).orderColumn = "created_at" ∧
    (fetchComplaintsQuery filters page complaintsPerPage).orderAscending = false ∧
    (∀ (st : ListState) (rows : List Complaint) (cnt : Int),
      (fetchComplaintsApply st { data := some rows, error := false, count := some cnt }).complaints
          = rows ∧
      (fetchComplaintsApply st { data := some rows, error := false, count := some cnt }).totalComplaints
          = cnt) := by
  refine ⟨rfl, ?_, ?_, ?_, ?_, rfl, ?_, rfl, rfl, ?_⟩
  · by_cases h : filters.status = "" <;> simp [fetchComplaintsQuery, h]
  · by_cases h : filters.status = "" <;> simp [fetchComplaintsQuery, h]
  · by_cases h : filters.issueType = "" <;> simp [fetchComplaintsQuery, h]
  · by_cases h : filters.issueType = "" <;> simp [fetchComplaintsQuery, h]
  · show (page - 1) * complaintsPerPage + complaintsPerPage - 1 = page * complaintsPerPage - 1
    ring
  · intro st rows cnt
    exact ⟨rfl, rfl⟩

/-- C4 witness: with the status filter set to Registered and the issue filter
unset, on page 2 with page size 5, the built query has a status predicate, no
issue-type predicate, and the row range 5 to 9. -/
theorem queryBuilder_contract_witness :
    (fetchComplaintsQuery { status := "Registered", issueType := "" } 2 5).statusEq
        = some "Registered" ∧
    (fetchComplaintsQuery { status := "Registered", issueType := "" } 2 5).issueTypeEq
        = none ∧
    (fetchComplaintsQuery { status := "Registered", issueType := "" } 2 5).rangeFrom = 5 ∧
    (fetchComplaintsQuery { status := "Registered", issueType := "" } 2 5).rangeTo = 9 := by
  have h := queryBuilder_contract { status := "Registered", issueType := "" } 2 5
  refine ⟨h.2.2.1.mpr (by decide), h.2.2.2.1.mpr rfl, ?_, ?_⟩
  · rw [h.2.2.2.2.2.1]; decide
  · rw [h.2.2.2.2.2.2.1]; decide

/-- C8: the Previous pagination control is disabled exactly when the current
page equals 1, and the Next control is disabled exactly when
currentPage * pageSize is at least totalCount. -/
theorem pagination_disabled_conditions (currentPage complaintsPerPage totalComplaints : Int) :
    (previousDisabled currentPage = true ↔ currentPage = 1) ∧
    (nextDisabled currentPage complaintsPerPage totalComplaints = true ↔
      currentPage * complaintsPerPage ≥ totalComplaints) := by
  constructor <;> simp [previousDisabled, nextDisabled]

/-- C8 witness: on page 1 the Previous control is disabled, and with page 2 of
size 5 over 10 total rows the Next control is disabled. -/
theorem pagination_disabled_conditions_witness :
    previousDisabled 1 = true ∧ nextDisabled 2 5 10 = true := by
  exact ⟨(pagination_disabled_conditions 1 5 10).1.mpr rfl,
         (pagination_disabled_conditions 2 5 10).2.mpr (by decide)⟩

/-- C9: when the complaint-list fetch fails, the held complaint list and the
total count are unchanged, the transient error notification is raised, and the
loading phase is exited. -/
theorem fetch_failure_preserves_state (st : ListState) (resp : QueryResponse)
    (herr : resp.error = true) :
    (fetchComplaintsApply st resp).complaints = st.complaints ∧
    (fetchComplaintsApply st resp).totalComplaints = st.totalComplaints ∧
    (fetchComplaintsApply st resp).loading = false ∧
    (fetchComplaintsApply st resp).errorToastShown = true := by
  simp [fetchComplaintsApply, herr]

/-- C9 witness: a failed fetch over a one-row held list leaves that list and
its count of 7 in place, ends loading, and shows the error notification. -/
theorem fetch_failure_preserves_state_witness :
    (fetchComplaintsApply
        { complaints := [{ id := 1, complaint_code := "CMP-001",
                           status := some "Registered", assigned_to := none }],
          totalComplaints := 7, loading := true }
        { data := none, error := true, count := none }).complaints
      = [{ id := 1, complaint_code := "CMP-001",
           status := some "Registered", assigned_to := none }] ∧
    (fetchComplaintsApply
        { complaints := [{ id := 1, complaint_code := "CMP-001",
                           status := some "Registered", assigned_to := none }],
          totalComplaints := 7, loading := true }
        { data := none, error := true, count := none }).totalComplaints = 7 := by
  have h := fetch_failure_preserves_state
    { complaints := [{ id := 1, complaint_code := "CMP-001",
                       status := some "Registered", assigned_to := none }],
      totalComplaints := 7, loading := true }
    { data := none, error := true, count := none } rfl
  exact ⟨h.1, h.2.1⟩

/-- C10: opening the assignment dialog for a complaint seeds the
worker-contact field from the complaint status value (empty string when the
status is null) — the same value the status field is seeded from, not a stored
contact number — while the worker-name field is seeded from the assigned
worker and the status field from the current status. -/
theorem openDialog_contact_seeded_from_status (c : Complaint) :
    (openAssignDialog c).workerContact = c.status.getD "" ∧
    (openAssignDialog c).workerContact = (openAssignDialog c).newStatus ∧
    (openAssignDialog c).workerName = c.assigned_to.getD "" ∧
    (openAssignDialog c).newStatus = c.status.getD "" ∧
    (openAssignDialog c).selectedComplaint = some c ∧
    (openAssignDialog c).assignDialogOpen = true :=
  ⟨rfl, rfl, rfl, rfl, rfl, rfl⟩

/-- C3: whenever no complaint is selected or any of worker name, worker
contact or target status is the empty string, handleAssignWorker issues
neither the update nor the insert, leaves the store untouched, and only
raises the local validation notification — for every such combination of
missing fields. -/
theorem assignWorkflow_validation_rejects (form : AssignForm)
    (store : RecordStoreState) (updateFails insertFails : Bool)
    (h : form.selectedComplaint = none ∨ form.workerName = "" ∨
         form.workerContact = "" ∨ form.newStatus = "") :
    (handleAssignWorker form store updateFails insertFails).updateAttempted = false ∧
    (handleAssignWorker form store updateFails insertFails).insertAttempted = false ∧
    (handleAssignWorker form store updateFails insertFails).store = store ∧
    (handleAssignWorker form store updateFails insertFails).toast = ToastKind.fillAllFields := by
  rcases hsel : form.selectedComplaint with _ | sel
  · simp [handleAssignWorker, hsel]
  · have h2 : form.workerName = "" ∨ form.workerContact = "" ∨ form.newStatus = "" := by
      rcases h with h | h
      · rw [hsel] at h; cases h
      · exact h
    simp [handleAssignWorker, hsel, h2]

/-- C3 witness: with a selected complaint but an empty worker contact, no
store call is issued and the validation notification is raised. -/
theorem assignWorkflow_validation_rejects_witness :
    (handleAssignWorker
        { selectedComplaint := some { id := 1, complaint_code := "CMP-001",
                                      status := some "Registered", assigned_to := none },
          workerName := "Ravi", workerContact := "", statusNote := "",
          newStatus := "Assigned" }
        { complaints := [], statusUpdates := [] } false false).updateAttempted = false ∧
    (handleAssignWorker
        { selectedComplaint := some { id := 1, complaint_code := "CMP-001",
                                      status := some "Registered", assigned_to := none },
          workerName := "Ravi", workerContact := "", statusNote := "",
          newStatus := "Assigned" }
        { complaints := [], statusUpdates := [] } false false).insertAttempted = false := by
  have h := assignWorkflow_validation_rejects
    { selectedComplaint := some { id := 1, complaint_code := "CMP-001",
                                  status := some "Registered", assigned_to := none },
      workerName := "Ravi", workerContact := "", statusNote := "",
      newStatus := "Assigned" }
    { complaints := [], statusUpdates := [] } false false (by right; right; left; rfl)
  exact ⟨h.1, h.2.1⟩

/-- C2: handleAssignWorker performs its two writes in a fixed order with no
rollback: the insert is only ever issued after the update was issued; if the
update fails the workflow aborts with the error notification, the store is
unchanged and the insert is never attempted; if the update succeeds and the
insert fails, the complaint row stays updated, the audit table stays
unchanged (no compensation), the error notification is raised and neither the
dialog close nor the form reset of the success path happens. -/
theorem assignWorkflow_order_no_rollback (c : Complaint) (store : RecordStoreState)
    (name contact noteText tgt : String) (updateFails insertFails : Bool)
    (hn : name ≠ "") (hc : contact ≠ "") (ht : tgt ≠ "") :
    ((handleAssignWorker ⟨some c, name, contact, noteText, tgt⟩
        store updateFails insertFails).insertAttempted = true →
      (handleAssignWorker ⟨some c, name, contact, noteText, tgt⟩
        store updateFails insertFails).updateAttempted = true) ∧
    (updateFails = true →
      (handleAssignWorker ⟨some c, name, contact, noteText, tgt⟩
        store updateFails insertFails).insertAttempted = false ∧
      (handleAssignWorker ⟨some c, name, contact, noteText, tgt⟩
        store updateFails insertFails).store = store ∧
      (handleAssignWorker ⟨some c, name, contact, noteText, tgt⟩
        store updateFails insertFails).toast = ToastKind.errorAssigning) ∧
    (updateFails = false → insertFails = true →
      (handleAssignWorker ⟨some c, name, contact, noteText, tgt⟩
        store updateFails insertFails).store
          = applyComplaintUpdate store c.id tgt name ∧
      (handleAssignWorker ⟨some c, name, contact, noteText, tgt⟩
        store updateFails insertFails).store.statusUpdates = store.statusUpdates ∧
      (handleAssignWorker ⟨some c, name, contact, noteText, tgt⟩
        store updateFails insertFails).dialogClosed = false ∧
      (handleAssignWorker ⟨some c, name, contact, noteText, tgt⟩
        store updateFails insertFails).formReset = false ∧
      (handleAssignWorker ⟨some c, name, contact, noteText, tgt⟩
        store updateFails insertFails).toast = ToastKind.errorAssigning) := by
  cases updateFails <;> cases insertFails <;>
    simp [handleAssignWorker, hn, hc, ht, applyComplaintUpdate]

/-- C2 witness: with a valid form, when the update call fails the insert is
not attempted and the store is unchanged; when the update succeeds and the
insert fails, the complaint row is updated while the audit table is not. -/
theorem assignWorkflow_order_no_rollback_witness :
    (handleAssignWorker
        { selectedComplaint := some { id := 1, complaint_code := "CMP-001",
                                      status := some "Registered", assigned_to := none },
          workerName := "Ravi", workerContact := "9876543210", statusNote := "",
          newStatus := "Assigned" }
        { complaints := [{ id := 1, complaint_code := "CMP-001",
                           status := some "Registered", assigned_to := none }],
          statusUpdates := [] } true false).insertAttempted = false ∧
    (handleAssignWorker
        { selectedComplaint := some { id := 1, complaint_code := "CMP-001",
                                      status := some "Registered", assigned_to := none },
          workerName := "Ravi", workerContact := "9876543210", statusNote := "",
          newStatus := "Assigned" }
        { complaints := [{ id := 1, complaint_code := "CMP-001",
                           status := some "Registered", assigned_to := none }],
          statusUpdates := [] } false true).store.statusUpdates = [] := by
  have h1 := assignWorkflow_order_no_rollback
    { id := 1, complaint_code := "CMP-001", status := some "Registered", assigned_to := none }
    { complaints := [{ id := 1, complaint_code := "CMP-001",
                       status := some "Registered", assigned_to := none }],
      statusUpdates := [] }
    "Ravi" "9876543210" "" "Assigned" true false (by decide) (by decide) (by decide)
  have h2 := assignWorkflow_order_no_rollback
    { id := 1, complaint_code := "CMP-001", status := some "Registered", assigned_to := none }
    { complaints := [{ id := 1, complaint_code := "CMP-001",
                       status := some "Registered", assigned_to := none }],
      statusUpdates := [] }
    "Ravi" "9876543210" "" "Assigned" false true (by decide) (by decide) (by decide)
  exact ⟨(h1.2.1 rfl).1, (h2.2.2 rfl rfl).2.1⟩

/-- C7: handleAssignWorker imposes no ordering constraint on status
transitions: for a selected complaint in any current status and any non-empty
target status (given non-empty worker fields), the workflow proceeds, issues
both writes, applies the chosen status to the complaint row and reports
success — the current status value is never consulted. -/
theorem assignWorkflow_unconstrained_transitions (c : Complaint)
    (store : RecordStoreState) (name contact noteText tgt : String)
    (hn : name ≠ "") (hc : contact ≠ "") (ht : tgt ≠ "") :
    (handleAssignWorker ⟨some c, name, contact, noteText, tgt⟩
        store false false).updateAttempted = true ∧
    (handleAssignWorker ⟨some c, name, contact, noteText, tgt⟩
        store false false).insertAttempted = true ∧
    (handleAssignWorker ⟨some c, name, contact, noteText, tgt⟩
        store false false).toast = ToastKind.workerAssigned ∧
    (handleAssignWorker ⟨some c, name, contact, noteText, tgt⟩
        store false false).store.complaints
      = (applyComplaintUpdate store c.id tgt name).complaints := by
  simp [handleAssignWorker, hn, hc, ht, applyComplaintUpdate]

/-- C7 witness: a complaint currently Resolved is moved back to Registered —
a non-monotonic transition — and the workflow accepts it. -/
theorem assignWorkflow_unconstrained_transitions_witness :
    (handleAssignWorker
        { selectedComplaint := some { id := 2, complaint_code := "CMP-002",
                                      status := some "Resolved", assigned_to := some "Asha" },
          workerName := "Asha", workerContact := "9123456789", statusNote := "reopen",
          newStatus := "Registered" }
        { complaints := [{ id := 2, complaint_code := "CMP-002",
                           status := some "Resolved", assigned_to := some "Asha" }],
          statusUpdates := [] } false false).toast = ToastKind.workerAssigned :=
  (assignWorkflow_unconstrained_transitions
    { id := 2, complaint_code := "CMP-002", status := some "Resolved", assigned_to := some "Asha" }
    { complaints := [{ id := 2, complaint_code := "CMP-002",
                       status := some "Resolved", assigned_to := some "Asha" }],
      statusUpdates := [] }
    "Asha" "9123456789" "reopen" "Registered"
    (by decide) (by decide) (by decide)).2.2.1

/-- C5 (amended): the gateway throws a request out of validation exactly when
phone, username or password is absent or empty (JavaScript-falsy), or the
phone fails the pattern test; a validation rejection is a 400 response with
success false and a non-empty descriptive error message; and overall the
response is an error response exactly when validation fails or a configured
provider refuses delivery (the fallback path never produces an error). -/
theorem gateway_validation_characterization (body : RequestBody) (env : TwilioEnv)
    (providerOk : Bool) (providerMessage : Option String) :
    (handleCredentialRequest body env providerOk providerMessage).validationRejected
        = !gatewayValidationPasses body ∧
    ((handleCredentialRequest body env providerOk providerMessage).validationRejected = true →
      (handleCredentialRequest body env providerOk providerMessage).response.status = 400 ∧
      (handleCredentialRequest body env providerOk providerMessage).response.success = false ∧
      ∃ e, (handleCredentialRequest body env providerOk providerMessage).response.error
              = some e ∧ e ≠ "") ∧
    (handleCredentialRequest body env providerOk providerMessage).response.success
        = (gatewayValidationPasses body && (!credsConfigured env || providerOk)) ∧
    (handleCredentialRequest body env providerOk providerMessage).response.status
        = (if (handleCredentialRequest body env providerOk providerMessage).response.success
           then 200 else 400) := by
  rcases (falsyStr body.phone || falsyStr body.username || falsyStr body.password).eq_false_or_eq_true
      with hb | hb <;>
    rcases (phoneFormatValid (body.phone.getD "")).eq_false_or_eq_true with hp | hp <;>
    rcases (credsConfigured env).eq_false_or_eq_true with hc | hc <;>
    rcases providerOk.eq_false_or_eq_true with hpo | hpo <;>
      simp [handleCredentialRequest, gatewayValidationPasses, hb, hp, hc, hpo,
        errorResponse, successResponse]

/-- C5 witness: a body missing the password is thrown out by validation with
a 400 response. -/
theorem gateway_validation_characterization_witness :
    (handleCredentialRequest ⟨some "+911234567890", some "user1", none⟩
        ⟨none, none, none⟩ true none).validationRejected = true ∧
    (handleCredentialRequest ⟨some "+911234567890", some "user1", none⟩
        ⟨none, none, none⟩ true none).response.status = 400 := by
  have h := gateway_validation_characterization ⟨some "+911234567890", some "user1", none⟩
    ⟨none, none, none⟩ true none
  have hrej : (handleCredentialRequest ⟨some "+911234567890", some "user1", none⟩
      ⟨none, none, none⟩ true none).validationRejected = true := by
    rw [h.1]; decide
  exact ⟨hrej, (h.2.1 hrej).1⟩

/-- C5 counterexample: the claim as stated says a body with all three fields
present and a matching phone proceeds past validation, but a present-but-empty
username is falsy in the source truthiness test, so the request with phone
+911234567890 (which matches the pattern), username the empty string and
password pw is rejected by validation with a 400 response. -/
theorem gateway_validation_claim_counterexample :
    (RequestBody.mk (some "+911234567890") (some "") (some "pw")).phone ≠ none ∧
    (RequestBody.mk (some "+911234567890") (some "") (some "pw")).username ≠ none ∧
    (RequestBody.mk (some "+911234567890") (some "") (some "pw")).password ≠ none ∧
    phoneFormatValid "+911234567890" = true ∧
    (handleCredentialRequest ⟨some "+911234567890", some "", some "pw"⟩
        ⟨none, none, none⟩ true none).validationRejected = true ∧
    (handleCredentialRequest ⟨some "+911234567890", some "", some "pw"⟩
        ⟨none, none, none⟩ true none).response.status = 400 ∧
    (handleCredentialRequest ⟨some "+911234567890", some "", some "pw"⟩
        ⟨none, none, none⟩ true none).response.success = false := by
  decide

/-- C6: when the provider credentials are not configured in the environment
and the request passes validation, the gateway makes no SMS dispatch, writes
the message content including the username and the password to the diagnostic
log, and still answers 200 with success true. -/
theorem gateway_fallback_logs_and_succeeds (body : RequestBody) (env : TwilioEnv)
    (providerOk : Bool) (providerMessage : Option String)
    (hcreds : credsConfigured env = false)
    (hvalid : gatewayValidationPasses body = true) :
    (handleCredentialRequest body env providerOk providerMessage).smsRequestMade = false ∧
    ("Your username: " ++ body.username.getD "")
        ∈ (handleCredentialRequest body env providerOk providerMessage).logLines ∧
    ("Your password: " ++ body.password.getD "")
        ∈ (handleCredentialRequest body env providerOk providerMessage).logLines ∧
    (handleCredentialRequest body env providerOk providerMessage).response.status = 200 ∧
    (handleCredentialRequest body env providerOk providerMessage).response.success = true := by
  rw [gatewayValidationPasses, Bool.and_eq_true] at hvalid
  have h1 : (falsyStr body.phone || falsyStr body.username || falsyStr body.password) = false := by
    simpa using hvalid.1
  simp [handleCredentialRequest, h1, hvalid.2, hcreds, successResponse]

/-- C6 witness: with no credentials in the environment, a valid request for
user1 returns success while the username and password lines are written to
the log and no SMS dispatch is made. -/
theorem gateway_fallback_witness :
    (handleCredentialRequest ⟨some "+911234567890", some "user1", some "pw1"⟩
        ⟨none, none, none⟩ true none).smsRequestMade = false ∧
    ("Your username: " ++ (some "user1").getD "")
        ∈ (handleCredentialRequest ⟨some "+911234567890", some "user1", some "pw1"⟩
            ⟨none, none, none⟩ true none).logLines ∧
    ("Your password: " ++ (some "pw1").getD "")
        ∈ (handleCredentialRequest ⟨some "+911234567890", some "user1", some "pw1"⟩
            ⟨none, none, none⟩ true none).logLines := by
  have h := gateway_fallback_logs_and_succeeds ⟨some "+911234567890", some "user1", some "pw1"⟩
    ⟨none, none, none⟩ true none (by decide) (by decide)
  exact ⟨h.1, h.2.1, h.2.2.1⟩

end NagarRakshak
